import Mathlib

/-!
# A shallow embedding of `bpm_master.py`

This file models the batch audio-tempo pipeline of `src/bpm_master.py`:
the file discoverer (`process_folder`, lines 210-213), the per-file
executor (`_process_single_file_task`, lines 159-199), the detection step
(`detect_bpm`, lines 99-125), the aggregation loop and summary counters
(`process_folder`, lines 271-314), and the precondition checks with the
process exit code (`main`, lines 352-372).

Modelling conventions:
* Python floats are modelled as rationals (`ℚ`).  The only float
  operations the modelled code performs on bpm values are doubling,
  comparison with literals, division and rounding, all of which are exact
  on the values of interest, so the rational model is faithful for the
  sign, ordering and termination behaviour the claims are about.
* Each external collaborator call that can raise an exception is given an
  abstract behaviour in a `TaskEnv` record; the executor is then a total
  function of those behaviours, mirroring the `try/except` structure of
  the source line by line.
* Effects (directory creation, invocation of the stretch collaborator)
  are recorded in the returned `TaskResult` so that frame conditions can
  be stated.
* The `while bpm < 100: bpm *= 2` loop of `detect_bpm` is modelled with
  explicit fuel: `octaveLoop n b = none` means the loop has not exited
  within `n` iterations, so divergence is `∀ n, octaveLoop n b = none`.
-/

namespace BPMMaster

/-- The status codes the per-file executor can return (the third tuple
component at source lines 172, 175, 186, 190, 194, 199).  They correspond
one-to-one to the spec's outcome kinds: `ANALYZE_ONLY` = AnalyzedOnly,
`PROCESSED` = Processed, `BPM_DETECTION_FAILED` = DetectionFailed,
`INVALID_BPM` = InvalidFactor, `STRETCH_FAILED` = StretchFailed,
`UNHANDLED_ERROR` = UnhandledError. -/
inductive Code where
  | BPM_DETECTION_FAILED
  | ANALYZE_ONLY
  | PROCESSED
  | STRETCH_FAILED
  | INVALID_BPM
  | UNHANDLED_ERROR
deriving DecidableEq, Repr

/-- The octave-correction loop of `detect_bpm` (source line 115:
`while bpm < 100: bpm *= 2`), modelled with explicit fuel.  `none` means
the loop has not exited within `fuel` iterations; a result `some v` is
the value of `bpm` when the loop guard first fails. -/
def octaveLoop : Nat → ℚ → Option ℚ
  | 0, b => if b < 100 then none else some b
  | n + 1, b => if b < 100 then octaveLoop n (2 * b) else some b

/-- Python's builtin `round` on a finite value: round to the nearest
integer, ties to even (source line 119 `bpm = round(bpm)`). -/
def pyRound (q : ℚ) : ℤ :=
  if q - (⌊q⌋ : ℚ) < 1 / 2 then ⌊q⌋
  else if 1 / 2 < q - (⌊q⌋ : ℚ) then ⌊q⌋ + 1
  else if ⌊q⌋ % 2 = 0 then ⌊q⌋ else ⌊q⌋ + 1

/-- `detect_bpm` (source lines 99-125).  `est` is the raw output of the
external `PercivalBpmEstimator` collaborator: `none` models an exception
raised by the loader or estimator, which the function's own
`try/except` converts into the failure marker `None`.  On a raw estimate
the octave-correction loop runs (with the given fuel), and the surviving
value is rounded to a whole number. -/
def detect_bpm (fuel : Nat) (est : Option ℚ) : Option ℚ :=
  match est with
  | none => none
  | some b => (octaveLoop fuel b).map (fun x => ((pyRound x : ℤ) : ℚ))

/-- Abstract behaviour of the effectful steps inside one executor run:
the result of the `detect_bpm` call (line 168; `none` is the failure
marker), and whether `Path.relative_to` (line 178), `mkdir` (line 180)
and `stretch_audio` (line 184) return normally (`true`) or raise
(`false`). -/
structure TaskEnv where
  detected : Option ℚ
  relOk : Bool
  mkdirOk : Bool
  stretchOk : Bool
deriving DecidableEq, Repr

/-- The executor's return value, mirroring the result tuples
`(is_success, path, code, *extra)` of lines 172-199, instrumented with
the effects of the run: `mkdirCalled` records whether the `mkdir` call of
line 180 was reached, and `stretchCalled = some factor` records that
`stretch_audio` was invoked with that stretch factor (line 184). -/
structure TaskResult where
  ok : Bool
  code : Code
  bpm : Option ℚ
  mkdirCalled : Bool
  stretchCalled : Option ℚ
deriving DecidableEq, Repr

/-- `_process_single_file_task` (source lines 159-199) as a total
function of the collaborator behaviours.  The branch structure mirrors
the source: `detected_bpm is None` → `BPM_DETECTION_FAILED`; then
`analyze_only` → `ANALYZE_ONLY` carrying the bpm; then
`detected_bpm > 0` → compute `factor = target_bpm / detected_bpm`,
resolve the output path, `mkdir`, and run `stretch_audio` under the inner
`try` (`PROCESSED` on success, `STRETCH_FAILED` on an exception there);
otherwise `INVALID_BPM`.  An exception in the path resolution or `mkdir`
steps is caught only by the outer handler (lines 196-199) and becomes
`UNHANDLED_ERROR`. -/
def process_single_file_task (env : TaskEnv) (target_bpm : ℚ)
    (analyze_only : Bool) : TaskResult :=
  match env.detected with
  | none => ⟨false, .BPM_DETECTION_FAILED, none, false, none⟩
  | some detected_bpm =>
    if analyze_only then ⟨true, .ANALYZE_ONLY, some detected_bpm, false, none⟩
    else if 0 < detected_bpm then
      let factor := target_bpm / detected_bpm
      if env.relOk then
        if env.mkdirOk then
          if env.stretchOk then ⟨true, .PROCESSED, none, true, some factor⟩
          else ⟨false, .STRETCH_FAILED, none, true, some factor⟩
        else ⟨false, .UNHANDLED_ERROR, none, true, none⟩
      else ⟨false, .UNHANDLED_ERROR, none, false, none⟩
    else ⟨false, .INVALID_BPM, none, false, none⟩

/-- Whether a run of the executor raises an error that the source does
not classify as `BPM_DETECTION_FAILED`, `INVALID_BPM` or
`STRETCH_FAILED`: this happens exactly when the `detected_bpm > 0`
branch is reached (a value was detected, analyze-only is off, the value
is positive) and the path-resolution or `mkdir` step raises. -/
def unclassifiedErrorRaised (env : TaskEnv) (analyze_only : Bool) : Bool :=
  match env.detected with
  | none => false
  | some d => !analyze_only && decide (0 < d) && (!env.relOk || !env.mkdirOk)

/-- The three counters of the aggregation loop in `process_folder`
(source lines 224-226, updated at lines 281, 284, 294). -/
structure Counters where
  processed_count : Nat
  modified_count : Nat
  failed_count : Nat
deriving DecidableEq, Repr

/-- One iteration of the aggregation loop (source lines 272-295):
`modified_count` is incremented only for a successful `PROCESSED`
result, `failed_count` for any unsuccessful result, and
`processed_count` for every result consumed. -/
def consume (c : Counters) (r : TaskResult) : Counters :=
  { processed_count := c.processed_count + 1
    modified_count :=
      if r.ok = true ∧ r.code = Code.PROCESSED then c.modified_count + 1
      else c.modified_count
    failed_count := if r.ok then c.failed_count else c.failed_count + 1 }

/-- The observable result of one `process_folder` run: whether the
output root was created (line 222), the list of outcomes consumed from
the pool, the final counters, and whether the final summary panel was
rendered (lines 307-322; the empty-folder early return at lines 215-217
skips it). -/
structure BatchResult where
  foundFiles : Nat
  outputDirCreated : Bool
  outcomes : List TaskResult
  counters : Counters
  summaryRendered : Bool
deriving DecidableEq, Repr

/-- `process_folder` (source lines 201-322) over an abstract list of
discovered files.  `envOf` gives the collaborator behaviour of each
file's executor run.  If no files are found the function returns early
(lines 215-217) with nothing created and no summary.  Otherwise the
output root is created unless analyze-only (lines 221-222), every file
is submitted exactly once (lines 255-258) and yields exactly one result
through `imap_unordered` (line 272), and the aggregation loop folds the
counters over the results.  The counters are invariant under the
completion order, so the submission-order list is used. -/
def process_folder {α : Type} (audio_files : List α) (envOf : α → TaskEnv)
    (target_bpm : ℚ) (analyze_only : Bool) : BatchResult :=
  if audio_files.isEmpty then
    { foundFiles := 0, outputDirCreated := false, outcomes := [],
      counters := ⟨0, 0, 0⟩, summaryRendered := false }
  else
    let outcomes :=
      audio_files.map (fun f => process_single_file_task (envOf f) target_bpm analyze_only)
    { foundFiles := audio_files.length
      outputDirCreated := !analyze_only
      outcomes := outcomes
      counters := outcomes.foldl consume ⟨0, 0, 0⟩
      summaryRendered := true }

/-- `main` after argument parsing (source lines 356-372): exit code `1`
if the input folder is not a directory (lines 358-361) or the target bpm
is not positive (lines 363-365); otherwise `process_folder` runs and the
process finishes with exit code `0`.  The first component is the process
exit code, the second the batch result when a batch ran. -/
def main {α : Type} (input_is_dir : Bool) (target_bpm : ℚ)
    (audio_files : List α) (envOf : α → TaskEnv) (analyze_only : Bool) :
    Nat × Option BatchResult :=
  if !input_is_dir then (1, none)
  else if target_bpm ≤ 0 then (1, none)
  else (0, some (process_folder audio_files envOf target_bpm analyze_only))

/-- One entry yielded by `input_path.rglob('*')` (source line 211):
its final path component and whether it is a regular file
(`p.is_file()`). -/
structure FsEntry where
  name : String
  isFile : Bool
deriving DecidableEq, Repr

/-- `SUPPORTED_EXTENSIONS` (source line 85). -/
def SUPPORTED_EXTENSIONS : List (List Char) :=
  [".mp3".toList, ".wav".toList, ".flac".toList]

/-- `str.rfind('.')`: the index of the last `'.'` in the name, if any. -/
def rfindDot (name : List Char) : Option Nat :=
  (List.range name.length).reverse.find? (fun i => name.get? i == some '.')

/-- `PurePath.suffix`: the substring of the final component from its last
dot, but only when that dot is neither the first nor the last character
(a leading dot marks a hidden file and a trailing dot is not an
extension); otherwise the empty suffix. -/
def pySuffix (name : List Char) : List Char :=
  match rfindDot name with
  | none => []
  | some i => if 0 < i && i + 1 < name.length then name.drop i else []

/-- `p.suffix.lower()` for a directory entry (source line 212). -/
def suffixLower (e : FsEntry) : List Char :=
  (pySuffix e.name.toList).map Char.toLower

/-- The discoverer (source lines 210-213): keep exactly the entries of
the recursive walk whose lower-cased suffix is a supported extension and
which are regular files. -/
def discover (entries : List FsEntry) : List FsEntry :=
  entries.filter (fun e => decide (suffixLower e ∈ SUPPORTED_EXTENSIONS) && e.isFile)

/-! ## Lemmas about the octave-correction loop and rounding -/

/-- If the initial estimate is not positive, doubling never makes it
reach 100: the loop body runs forever, whatever the fuel. -/
theorem octaveLoop_eq_none_of_nonpos (n : Nat) :
    ∀ b : ℚ, b ≤ 0 → octaveLoop n b = none := by
  induction n with
  | zero =>
    intro b hb
    have : b < 100 := lt_of_le_of_lt hb (by norm_num)
    simp [octaveLoop, this]
  | succ n ih =>
    intro b hb
    have h1 : b < 100 := lt_of_le_of_lt hb (by norm_num)
    have h2 : (2 : ℚ) * b ≤ 0 := by nlinarith
    simp [octaveLoop, h1, ih (2 * b) h2]

/-- Any value the loop exits with fails the loop guard, i.e. is at
least 100. -/
theorem octaveLoop_ge_100_of_some (n : Nat) :
    ∀ b v : ℚ, octaveLoop n b = some v → 100 ≤ v := by
  induction n with
  | zero =>
    intro b v h
    by_cases hb : b < 100
    · simp [octaveLoop, hb] at h
    · simp [octaveLoop, hb] at h
      exact h ▸ not_lt.mp hb
  | succ n ih =>
    intro b v h
    by_cases hb : b < 100
    · exact ih (2 * b) v (by simpa [octaveLoop, hb] using h)
    · simp [octaveLoop, hb] at h
      exact h ▸ not_lt.mp hb

/-- Enough fuel to push the estimate past 100 makes the loop exit. -/
theorem octaveLoop_isSome_of_le (n : Nat) :
    ∀ b : ℚ, 100 ≤ 2 ^ n * b → (octaveLoop n b).isSome = true := by
  induction n with
  | zero =>
    intro b h
    rw [pow_zero, one_mul] at h
    simp [octaveLoop, not_lt.mpr h]
  | succ n ih =>
    intro b h
    by_cases hb : b < 100
    · have h2 : 100 ≤ 2 ^ n * (2 * b) := by
        calc (100 : ℚ) ≤ 2 ^ (n + 1) * b := h
        _ = 2 ^ n * (2 * b) := by ring
      simpa [octaveLoop, hb] using ih (2 * b) h2
    · simp [octaveLoop, hb]

/-- Rounding a rational that is at least 100 yields an integer that is
at least 100. -/
theorem pyRound_ge_100 (q : ℚ) (h : (100 : ℚ) ≤ q) : (100 : ℤ) ≤ pyRound q := by
  have hf : (100 : ℤ) ≤ ⌊q⌋ := Int.le_floor.mpr (by exact_mod_cast h)
  unfold pyRound
  split_ifs <;> omega

/-- C9 (counterexample): the octave-correction loop does not terminate
on the initial estimate 0 — `0 * 2 = 0` stays below 100 forever — so the
claim that the loop terminates for every initial estimate is false. -/
theorem octave_loop_diverges_at_zero :
    ¬ ∃ n, (octaveLoop n (0 : ℚ)).isSome = true := by
  rintro ⟨n, hn⟩
  rw [octaveLoop_eq_none_of_nonpos n 0 le_rfl] at hn
  simp at hn

/-- C9 (amended): the octave-correction loop of `detect_bpm` terminates
for every strictly positive initial estimate, exiting with a value of at
least 100, and `detect_bpm` then returns a value; for a non-positive
initial estimate the loop never exits (see the counterexample). -/
theorem octave_loop_terminates_on_positive (b : ℚ) (hb : 0 < b) :
    ∃ n v, octaveLoop n b = some v ∧ 100 ≤ v ∧
      (detect_bpm n (some b)).isSome = true := by
  obtain ⟨n, hn⟩ := pow_unbounded_of_one_lt (100 / b) (by norm_num : (1 : ℚ) < 2)
  have hle : 100 ≤ 2 ^ n * b := le_of_lt ((div_lt_iff₀ hb).mp hn)
  have hs := octaveLoop_isSome_of_le n b hle
  obtain ⟨v, hv⟩ := Option.isSome_iff_exists.mp hs
  exact ⟨n, v, hv, octaveLoop_ge_100_of_some n b v hv,
    by simp [detect_bpm, hv]⟩

/-- C9 (witness): the amended termination statement at the concrete
estimate 50. -/
theorem octave_loop_terminates_on_positive_witness :
    (0 : ℚ) < 50 ∧ ∃ n v, octaveLoop n (50 : ℚ) = some v ∧ 100 ≤ v ∧
      (detect_bpm n (some (50 : ℚ))).isSome = true :=
  ⟨by norm_num, octave_loop_terminates_on_positive 50 (by norm_num)⟩

/-! ## Lemmas about the per-file executor -/

/-- The executor records a stretch invocation exactly when a positive
bpm was detected, analyze-only is off, and the path/`mkdir` steps did
not raise; the recorded factor is `target / detected`. -/
theorem stretchCalled_eq_some_iff (env : TaskEnv) (t : ℚ) (a : Bool) (f : ℚ) :
    (process_single_file_task env t a).stretchCalled = some f ↔
      ∃ d, env.detected = some d ∧ 0 < d ∧ a = false ∧
        env.relOk = true ∧ env.mkdirOk = true ∧ f = t / d := by
  obtain ⟨det, rel, mk, st⟩ := env
  cases det with
  | none => simp [process_single_file_task]
  | some d =>
    by_cases hd : 0 < d <;>
      cases a <;> cases rel <;> cases mk <;> cases st <;>
        simp [process_single_file_task, hd, eq_comm]

/-- The executor returns `INVALID_BPM` exactly when detection produced a
value that is not strictly positive and analyze-only is off. -/
theorem code_eq_INVALID_BPM_iff (env : TaskEnv) (t : ℚ) (a : Bool) :
    (process_single_file_task env t a).code = Code.INVALID_BPM ↔
      ∃ d, env.detected = some d ∧ d ≤ 0 ∧ a = false := by
  obtain ⟨det, rel, mk, st⟩ := env
  cases det with
  | none => simp [process_single_file_task]
  | some d =>
    by_cases hd : 0 < d
    · cases a <;> cases rel <;> cases mk <;> cases st <;>
        simp [process_single_file_task, hd, not_le.mpr hd]
    · have hle : d ≤ 0 := not_lt.mp hd
      cases a <;> cases rel <;> cases mk <;> cases st <;>
        simp [process_single_file_task, hd, hle]


/-- C1: for every collaborator behaviour, target bpm and analyze-only
flag, the executor returns exactly one result whose code lies in the
closed six-element set, and the code is `UNHANDLED_ERROR` exactly when
the run raised an error that the source does not classify as
`BPM_DETECTION_FAILED`, `INVALID_BPM` or `STRETCH_FAILED` — no error
propagates past the executor boundary, since the executor is a total
function of the behaviours. -/
theorem executor_outcome_closed (env : TaskEnv) (t : ℚ) (a : Bool) :
    (process_single_file_task env t a).code ∈
      [Code.ANALYZE_ONLY, Code.PROCESSED, Code.BPM_DETECTION_FAILED,
        Code.INVALID_BPM, Code.STRETCH_FAILED, Code.UNHANDLED_ERROR] ∧
    ((process_single_file_task env t a).code = Code.UNHANDLED_ERROR ↔
      unclassifiedErrorRaised env a = true) := by
  obtain ⟨det, rel, mk, st⟩ := env
  cases det with
  | none => simp [process_single_file_task, unclassifiedErrorRaised]
  | some d =>
    by_cases hd : 0 < d <;>
      cases a <;> cases rel <;> cases mk <;> cases st <;>
        simp [process_single_file_task, unclassifiedErrorRaised, hd]

/-- C1 (witness): the closed-set and unhandled-error statement at a
concrete behaviour in which the path-resolution step raises. -/
theorem executor_outcome_closed_witness :
    (process_single_file_task ⟨some 120, false, true, true⟩ 128 false).code ∈
      [Code.ANALYZE_ONLY, Code.PROCESSED, Code.BPM_DETECTION_FAILED,
        Code.INVALID_BPM, Code.STRETCH_FAILED, Code.UNHANDLED_ERROR] ∧
    ((process_single_file_task ⟨some 120, false, true, true⟩ 128 false).code =
        Code.UNHANDLED_ERROR ↔
      unclassifiedErrorRaised ⟨some 120, false, true, true⟩ false = true) :=
  executor_outcome_closed ⟨some 120, false, true, true⟩ 128 false

/-- C3 (counterexample): when detection returns the non-positive value
`0` (a value, not the failure marker) and analyze-only is off, the
executor classifies the file as `INVALID_BPM`, not as
`BPM_DETECTION_FAILED` as the claim states. -/
theorem nonpositive_bpm_is_INVALID_BPM_not_DETECTION_FAILED :
    (process_single_file_task ⟨some 0, true, true, true⟩ 120 false).code =
      Code.INVALID_BPM ∧
    Code.INVALID_BPM ≠ Code.BPM_DETECTION_FAILED := by
  constructor
  · norm_num [process_single_file_task]
  · intro h
    exact Code.noConfusion h

/-- C3 (amended): for every file on which detection returns a
non-positive bpm value, the executor never invokes the stretch
collaborator; it classifies the file as `INVALID_BPM` when analyze-only
is off, and as `ANALYZE_ONLY` when analyze-only is set. -/
theorem executor_nonpositive_bpm_classification (env : TaskEnv) (t : ℚ)
    (a : Bool) (d : ℚ) (hd : env.detected = some d) (hle : d ≤ 0) :
    (process_single_file_task env t a).stretchCalled = none ∧
    (process_single_file_task env t a).code =
      (if a then Code.ANALYZE_ONLY else Code.INVALID_BPM) := by
  obtain ⟨det, rel, mk, st⟩ := env
  simp only [TaskEnv.detected] at hd
  subst hd
  have hnd : ¬ 0 < d := not_lt.mpr hle
  cases a <;> simp [process_single_file_task, hnd]

/-- C3 (witness): the amended classification at detected bpm `0`,
analyze-only off. -/
theorem executor_nonpositive_bpm_classification_witness :
    (⟨some 0, true, true, true⟩ : TaskEnv).detected = some 0 ∧ (0 : ℚ) ≤ 0 ∧
    ((process_single_file_task ⟨some 0, true, true, true⟩ 140 false).stretchCalled =
        none ∧
      (process_single_file_task ⟨some 0, true, true, true⟩ 140 false).code =
        (if false then Code.ANALYZE_ONLY else Code.INVALID_BPM)) :=
  ⟨rfl, le_refl 0,
    executor_nonpositive_bpm_classification ⟨some 0, true, true, true⟩ 140 false 0
      rfl (le_refl 0)⟩

/-- C4 (counterexample): in analyze-only mode a detected bpm of `0` (a
value that is not strictly positive) is classified as the success
outcome `ANALYZE_ONLY`, not as a detection/invalid-bpm failure as the
claim states — though the stretch collaborator is indeed not invoked. -/
theorem analyze_only_nonpositive_bpm_is_success :
    (process_single_file_task ⟨some 0, true, true, true⟩ 120 true).code =
      Code.ANALYZE_ONLY ∧
    (process_single_file_task ⟨some 0, true, true, true⟩ 120 true).ok = true ∧
    Code.ANALYZE_ONLY ≠ Code.BPM_DETECTION_FAILED ∧
    Code.ANALYZE_ONLY ≠ Code.INVALID_BPM := by
  refine ⟨rfl, rfl, fun h => Code.noConfusion h, fun h => Code.noConfusion h⟩

/-- C4 (amended): with a strictly positive target bpm, the stretch
collaborator is invoked only when a strictly positive bpm was detected,
and then with the strictly positive (and, in exact arithmetic, finite)
factor `target / detected`; when detection returns a non-positive value
and analyze-only is off the file is classified `INVALID_BPM` without a
stretch call, and when detection fails it is classified
`BPM_DETECTION_FAILED` without a stretch call. -/
theorem stretch_factor_invariant (env : TaskEnv) (t : ℚ) (a : Bool)
    (ht : 0 < t) :
    (∀ f, (process_single_file_task env t a).stretchCalled = some f →
       ∃ d, env.detected = some d ∧ 0 < d ∧ f = t / d ∧ 0 < f) ∧
    (∀ d, env.detected = some d → d ≤ 0 → a = false →
       (process_single_file_task env t a).stretchCalled = none ∧
       (process_single_file_task env t a).code = Code.INVALID_BPM) ∧
    (env.detected = none →
       (process_single_file_task env t a).stretchCalled = none ∧
       (process_single_file_task env t a).code = Code.BPM_DETECTION_FAILED) := by
  refine ⟨?_, ?_, ?_⟩
  · intro f hf
    obtain ⟨d, hdet, hd, _, _, _, hfac⟩ :=
      (stretchCalled_eq_some_iff env t a f).mp hf
    exact ⟨d, hdet, hd, hfac, hfac ▸ div_pos ht hd⟩
  · intro d hdet hle ha
    subst ha
    obtain ⟨h1, h2⟩ :=
      executor_nonpositive_bpm_classification env t false d hdet hle
    exact ⟨h1, by simpa using h2⟩
  · intro hdet
    obtain ⟨det, rel, mk, st⟩ := env
    simp only [TaskEnv.detected] at hdet
    subst hdet
    simp [process_single_file_task]

/-- C4 (witness): the amended factor invariant at target bpm 130,
detected bpm 120, all collaborator steps succeeding. -/
theorem stretch_factor_invariant_witness :
    (0 : ℚ) < 130 ∧
    ((∀ f,
        (process_single_file_task ⟨some 120, true, true, true⟩ 130
              false).stretchCalled = some f →
        ∃ d, (⟨some 120, true, true, true⟩ : TaskEnv).detected = some d ∧
          0 < d ∧ f = 130 / d ∧ 0 < f) ∧
      (∀ d, (⟨some 120, true, true, true⟩ : TaskEnv).detected = some d →
        d ≤ 0 → false = false →
        (process_single_file_task ⟨some 120, true, true, true⟩ 130
              false).stretchCalled = none ∧
        (process_single_file_task ⟨some 120, true, true, true⟩ 130
              false).code = Code.INVALID_BPM) ∧
      ((⟨some 120, true, true, true⟩ : TaskEnv).detected = none →
        (process_single_file_task ⟨some 120, true, true, true⟩ 130
              false).stretchCalled = none ∧
        (process_single_file_task ⟨some 120, true, true, true⟩ 130
              false).code = Code.BPM_DETECTION_FAILED)) :=
  ⟨by norm_num,
    stretch_factor_invariant ⟨some 120, true, true, true⟩ 130 false (by norm_num)⟩

/-- C10: every value `detect_bpm` returns is (the embedding of) a whole
number at least 100, hence strictly positive; consequently an executor
run whose detection input comes from `detect_bpm` can never produce the
`INVALID_BPM` outcome. -/
theorem detect_bpm_whole_ge_100 (fuel : Nat) (est : Option ℚ) :
    (∀ v, detect_bpm fuel est = some v →
       (∃ k : ℤ, v = (k : ℚ)) ∧ 100 ≤ v ∧ 0 < v) ∧
    (∀ (env : TaskEnv) (t : ℚ) (a : Bool),
       env.detected = detect_bpm fuel est →
       (process_single_file_task env t a).code ≠ Code.INVALID_BPM) := by
  have key : ∀ v, detect_bpm fuel est = some v →
      (∃ k : ℤ, v = (k : ℚ)) ∧ 100 ≤ v ∧ 0 < v := by
    intro v hv
    cases est with
    | none => simp [detect_bpm] at hv
    | some b =>
      simp only [detect_bpm, Option.map_eq_some'] at hv
      obtain ⟨x, hx, hxv⟩ := hv
      have h100 : (100 : ℚ) ≤ x := octaveLoop_ge_100_of_some fuel b x hx
      have h100z : (100 : ℤ) ≤ pyRound x := pyRound_ge_100 x h100
      have h100q : (100 : ℚ) ≤ ((pyRound x : ℤ) : ℚ) := by exact_mod_cast h100z
      refine ⟨⟨pyRound x, hxv.symm⟩, hxv ▸ h100q, hxv ▸ lt_of_lt_of_le (by norm_num) h100q⟩
  refine ⟨key, ?_⟩
  intro env t a hdet hcode
  obtain ⟨d, hd, hle, _⟩ := (code_eq_INVALID_BPM_iff env t a).mp hcode
  rw [hdet] at hd
  obtain ⟨_, _, hpos⟩ := key d hd
  exact absurd hpos (not_lt.mpr hle)

/-- C10 (witness): the whole-number bound and the impossibility of
`INVALID_BPM` at the concrete raw estimate 60 (doubled once to 120) with
fuel 8. -/
theorem detect_bpm_whole_ge_100_witness :
    (∀ v, detect_bpm 8 (some 60) = some v →
       (∃ k : ℤ, v = (k : ℚ)) ∧ 100 ≤ v ∧ 0 < v) ∧
    (∀ (env : TaskEnv) (t : ℚ) (a : Bool),
       env.detected = detect_bpm 8 (some 60) →
       (process_single_file_task env t a).code ≠ Code.INVALID_BPM) :=
  detect_bpm_whole_ge_100 8 (some 60)

/-! ## Batch-level lemmas -/

/-- Every consumed result advances `processed_count` by exactly one, so
folding the aggregation step over a result list adds its length. -/
theorem foldl_consume_processed (rs : List TaskResult) :
    ∀ c : Counters,
      (rs.foldl consume c).processed_count = c.processed_count + rs.length := by
  induction rs with
  | nil => intro c; simp
  | cons r rs ih =>
    intro c
    rw [List.foldl_cons, ih]
    simp [consume]
    omega

/-- C2: for every batch, the aggregator consumes exactly one outcome per
discovered file, and the completed-file counter `processed_count` at
summary time equals the number of discovered files. -/
theorem batch_completeness {α : Type} (audio_files : List α)
    (envOf : α → TaskEnv) (t : ℚ) (a : Bool) :
    (process_folder audio_files envOf t a).outcomes.length =
      audio_files.length ∧
    (process_folder audio_files envOf t a).counters.processed_count =
      audio_files.length := by
  by_cases h : audio_files.isEmpty
  · rw [List.isEmpty_iff] at h
    subst h
    simp [process_folder]
  · simp [process_folder, h, foldl_consume_processed]

/-- C2 (witness): completeness at a concrete two-file batch in which one
file succeeds and one fails detection. -/
theorem batch_completeness_witness :
    (process_folder [true, false]
        (fun good => if good then ⟨some 120, true, true, true⟩
          else ⟨none, true, true, true⟩) 130 false).outcomes.length =
      [true, false].length ∧
    (process_folder [true, false]
        (fun good => if good then ⟨some 120, true, true, true⟩
          else ⟨none, true, true, true⟩) 130 false).counters.processed_count =
      [true, false].length :=
  batch_completeness [true, false]
    (fun good => if good then ⟨some 120, true, true, true⟩
      else ⟨none, true, true, true⟩) 130 false

/-- C5: in analyze-only mode the batch never creates the output root,
and no executor run reaches the `mkdir` or stretch steps; every run in
which detection returned a value yields the `ANALYZE_ONLY` success
outcome carrying that detected bpm. -/
theorem analyze_only_purity {α : Type} (audio_files : List α)
    (envOf : α → TaskEnv) (t : ℚ) :
    (process_folder audio_files envOf t true).outputDirCreated = false ∧
    (∀ env : TaskEnv,
       (process_single_file_task env t true).mkdirCalled = false ∧
       (process_single_file_task env t true).stretchCalled = none ∧
       (∀ d, env.detected = some d →
         (process_single_file_task env t true).code = Code.ANALYZE_ONLY ∧
         (process_single_file_task env t true).ok = true ∧
         (process_single_file_task env t true).bpm = some d)) ∧
    (∀ r ∈ (process_folder audio_files envOf t true).outcomes,
       r.mkdirCalled = false ∧ r.stretchCalled = none) := by
  have hexec : ∀ env : TaskEnv,
      (process_single_file_task env t true).mkdirCalled = false ∧
      (process_single_file_task env t true).stretchCalled = none ∧
      (∀ d, env.detected = some d →
        (process_single_file_task env t true).code = Code.ANALYZE_ONLY ∧
        (process_single_file_task env t true).ok = true ∧
        (process_single_file_task env t true).bpm = some d) := by
    intro env
    obtain ⟨det, rel, mk, st⟩ := env
    cases det <;> simp [process_single_file_task]
  refine ⟨?_, hexec, ?_⟩
  · by_cases h : audio_files.isEmpty
    · rw [List.isEmpty_iff] at h
      subst h
      simp [process_folder]
    · simp [process_folder, h]
  · intro r hr
    by_cases h : audio_files.isEmpty
    · rw [List.isEmpty_iff] at h
      subst h
      simp [process_folder] at hr
    · simp [process_folder, h, List.mem_map] at hr
      obtain ⟨f, _, hf⟩ := hr
      obtain ⟨h1, h2, _⟩ := hexec (envOf f)
      exact ⟨hf ▸ h1, hf ▸ h2⟩

/-- C5 (witness): analyze-only purity at a concrete one-file batch with
detected bpm 120. -/
theorem analyze_only_purity_witness :
    (process_folder [()] (fun _ => ⟨some 120, true, true, true⟩)
        130 true).outputDirCreated = false ∧
    (∀ env : TaskEnv,
       (process_single_file_task env 130 true).mkdirCalled = false ∧
       (process_single_file_task env 130 true).stretchCalled = none ∧
       (∀ d, env.detected = some d →
         (process_single_file_task env 130 true).code = Code.ANALYZE_ONLY ∧
         (process_single_file_task env 130 true).ok = true ∧
         (process_single_file_task env 130 true).bpm = some d)) ∧
    (∀ r ∈ (process_folder [()] (fun _ => ⟨some 120, true, true, true⟩)
        130 true).outcomes,
       r.mkdirCalled = false ∧ r.stretchCalled = none) :=
  analyze_only_purity [()] (fun _ => ⟨some 120, true, true, true⟩) 130

/-- C7: an entry of the recursive walk is discovered exactly when it is
a regular file whose lower-cased extension is a supported one;
directories and files with any other extension produce no entry. -/
theorem discover_membership (entries : List FsEntry) (e : FsEntry) :
    e ∈ discover entries ↔
      e ∈ entries ∧ e.isFile = true ∧
        suffixLower e ∈ SUPPORTED_EXTENSIONS := by
  simp only [discover, List.mem_filter, Bool.and_eq_true, decide_eq_true_eq]
  tauto

/-- C7 (witness): the discoverer characterization at a concrete walk
containing a matching file, a directory with a matching name, and a
non-matching file. -/
theorem discover_membership_witness :
    (⟨"track.MP3", true⟩ : FsEntry) ∈
        discover [⟨"track.MP3", true⟩, ⟨"samples.mp3", false⟩, ⟨"notes.txt", true⟩] ↔
      (⟨"track.MP3", true⟩ : FsEntry) ∈
          [(⟨"track.MP3", true⟩ : FsEntry), ⟨"samples.mp3", false⟩, ⟨"notes.txt", true⟩] ∧
        (⟨"track.MP3", true⟩ : FsEntry).isFile = true ∧
        suffixLower ⟨"track.MP3", true⟩ ∈ SUPPORTED_EXTENSIONS :=
  discover_membership [⟨"track.MP3", true⟩, ⟨"samples.mp3", false⟩, ⟨"notes.txt", true⟩]
    ⟨"track.MP3", true⟩

/-- C8: the process exit code is `0` exactly when the input path is a
directory and the target bpm is strictly positive — independently of the
per-file outcomes — and with both preconditions met and no matching
files discovered the run exits early with code `0`, zero outcomes and no
summary. -/
theorem main_exit_code {α : Type} (input_is_dir : Bool) (t : ℚ)
    (audio_files : List α) (envOf : α → TaskEnv) (a : Bool) :
    ((main input_is_dir t audio_files envOf a).1 = 0 ↔
      (input_is_dir = true ∧ 0 < t)) ∧
    (input_is_dir = true → 0 < t → audio_files = [] →
      main input_is_dir t audio_files envOf a =
        (0, some { foundFiles := 0, outputDirCreated := false, outcomes := [],
                   counters := ⟨0, 0, 0⟩, summaryRendered := false })) := by
  constructor
  · cases input_is_dir
    · simp [main]
    · by_cases ht : t ≤ 0
      · simp [main, ht, not_lt.mpr ht]
      · simp [main, ht, not_le.mp ht]
  · intro hdir hpos hfiles
    subst hdir
    subst hfiles
    simp [main, not_le.mpr hpos, process_folder]

/-- C8 (witness): exit code `0` and the early zero-files termination at
a concrete empty batch with target bpm 120, and the two fatal
preconditions rejected at concrete bad inputs. -/
theorem main_exit_code_witness :
    (main true (120 : ℚ) ([] : List Unit) (fun _ => ⟨none, true, true, true⟩)
        false =
      (0, some { foundFiles := 0, outputDirCreated := false, outcomes := [],
                 counters := ⟨0, 0, 0⟩, summaryRendered := false })) ∧
    ((main true (120 : ℚ) ([] : List Unit) (fun _ => ⟨none, true, true, true⟩)
        false).1 = 0 ↔ (true = true ∧ (0 : ℚ) < 120)) :=
  ⟨(main_exit_code true 120 [] (fun _ => ⟨none, true, true, true⟩) false).2
      rfl (by norm_num) rfl,
    (main_exit_code true 120 [] (fun _ => ⟨none, true, true, true⟩) false).1⟩

end BPMMaster
